import Mathlib

/-!
Shallow embedding of `auto_checkin.py` (Kurobbs auto check-in script).

The Python program is a single linear workflow on a stateful client object
holding `results : Dict[str, str]` and `exceptions : List[Exception]`.
We model:
  * JSON values (`Json`) for request payloads and the `data` field of the
    universal response envelope;
  * Python exceptions that can flow through the program (`Exc`);
  * the response envelope `ApiResponse` (pydantic model);
  * the network as an oracle `World : String → Nat → AttemptOutcome`
    giving, per endpoint name, the outcome of the n-th HTTP attempt
    (a network-level failure, i.e. `requests.exceptions.RequestException`
    including non-2xx raised by `raise_for_status`, or a response body);
  * the client state (`results`, `exceptions`) plus a trace of the
    logical HTTP requests issued (endpoint, Content-Type, body), which is
    the embedding's record of the observable network effects;
  * every function of the script as explicit state passing, with
    exceptions as `Except Exc`.
`datetime.now().month` and `datetime.now().strftime` are nondeterministic
inputs; they are threaded as explicit parameters `month` and `dateStr`.
-/

/-- A JSON value, as Python deserializes it. -/
inductive Json where
  | null : Json
  | bool : Bool → Json
  | num : Int → Json
  | str : String → Json
  | arr : List Json → Json
  | obj : List (String × Json) → Json

/-- Python truthiness of a deserialized JSON value. -/
def Json.truthy : Json → Bool
  | .null => false
  | .bool b => b
  | .num n => n != 0
  | .str s => !s.isEmpty
  | .arr xs => !xs.isEmpty
  | .obj fs => !fs.isEmpty

/-- Python truthiness of an `Optional` JSON value (`None` is falsy). -/
def optTruthy : Option Json → Bool
  | none => false
  | some j => j.truthy

/-- `isinstance(x, dict)` on an `Optional` JSON value. -/
def isDict : Option Json → Bool
  | some (Json.obj _) => true
  | _ => false

/-- `d.get(k, dflt)` on a deserialized JSON object. -/
def Json.objGet (fields : List (String × Json)) (k : String) (dflt : Json) : Json :=
  match fields.lookup k with
  | some v => v
  | none => dflt

/-- The exceptions that flow through the script.  `requestException`,
`validationException` and `kurobbsClientException` are the script's own
classes; `keyError`, `typeError` and `valueError` are Python built-ins. -/
inductive Exc where
  | requestException : String → Exc
  | validationException : String → Exc
  | kurobbsClientException : String → Exc
  | keyError : String → Exc
  | typeError : String → Exc
  | valueError : String → Exc
deriving DecidableEq

/-- `type(e).__name__`, used by `_generate_report`. -/
def Exc.typeName : Exc → String
  | .requestException _ => "RequestException"
  | .validationException _ => "ValidationException"
  | .kurobbsClientException _ => "KurobbsClientException"
  | .keyError _ => "KeyError"
  | .typeError _ => "TypeError"
  | .valueError _ => "ValueError"

/-- `str(e)`. -/
def Exc.message : Exc → String
  | .requestException m => m
  | .validationException m => m
  | .kurobbsClientException m => m
  | .keyError m => m
  | .typeError m => m
  | .valueError m => m

/-- The universal response envelope (pydantic model `ApiResponse`):
`{code: int, msg: str, success: Optional[bool], data: Optional[Any]}`. -/
structure ApiResponse where
  code : Int
  msg : String
  success : Option Bool
  data : Option Json

/-- `GameInfo` (pydantic model): `{gameId, serverId, roleId, userId}`, all ints. -/
structure GameInfo where
  gameId : Int
  serverId : Int
  roleId : Int
  userId : Int
deriving DecidableEq

/-- The body text of an HTTP response, as seen by envelope validation:
either it validates into an `ApiResponse`, or
`ApiResponse.model_validate_json` raises a `ValidationError` (modelled
with its message). -/
inductive ResponseBody where
  | valid : ApiResponse → ResponseBody
  | invalid : String → ResponseBody

/-- Outcome of one HTTP attempt: a `requests.exceptions.RequestException`
(connection error, timeout, or non-2xx via `raise_for_status`), or a
2xx response with a body. -/
inductive AttemptOutcome where
  | netFail : String → AttemptOutcome
  | ok : ResponseBody → AttemptOutcome

/-- The network oracle: per endpoint name, the outcome of each attempt. -/
def World : Type := String → Nat → AttemptOutcome

-- Constants from the script.
def MAX_RETRIES : Nat := 3
def RETRY_DELAY : Nat := 1
def DEFAULT_TIMEOUT : Nat := 10

/-- Result of `_request_with_retry`, instrumented with the indices of the
attempts actually made and the backoff sleeps performed (in seconds),
which are the loop's observable effects. -/
structure RetryResult where
  out : Except Exc ResponseBody
  attemptsMade : List Nat
  sleeps : List Nat

/-- The body of `_request_with_retry`'s `for attempt in range(MAX_RETRIES)`
loop, starting at index `attempt` with `fuel` iterations left.  On a
network failure at an index below `MAX_RETRIES - 1` it sleeps
`RETRY_DELAY * (attempt + 1)` and continues; on the last index it raises
`RequestException(f"请求失败: {e}")`.  The `fuel = 0` base case models the
loop falling through (unreachable from the entry point, where
`fuel = MAX_RETRIES` covers indices `0..MAX_RETRIES-1`). -/
def requestWithRetryAux (attempts : Nat → AttemptOutcome) (attempt : Nat) :
    Nat → RetryResult
  | 0 => ⟨.error (.requestException "重试循环耗尽"), [], []⟩
  | fuel + 1 =>
    match attempts attempt with
    | .ok body => ⟨.ok body, [attempt], []⟩
    | .netFail msg =>
      if attempt < MAX_RETRIES - 1 then
        let r := requestWithRetryAux attempts (attempt + 1) fuel
        ⟨r.out, attempt :: r.attemptsMade, RETRY_DELAY * (attempt + 1) :: r.sleeps⟩
      else
        ⟨.error (.requestException ("请求失败: " ++ msg)), [attempt], []⟩

/-- `KurobbsClient._request_with_retry`. -/
def requestWithRetry (attempts : Nat → AttemptOutcome) : RetryResult :=
  requestWithRetryAux attempts 0 MAX_RETRIES

/-- `API_ENDPOINTS` of `KurobbsClient`. -/
def API_ENDPOINTS : List (String × String) :=
  [("find_role_list", "https://api.kurobbs.com/user/role/findRoleList"),
   ("sign_in", "https://api.kurobbs.com/encourage/signIn/v2"),
   ("user_sign", "https://api.kurobbs.com/user/signIn"),
   ("init_sign_check", "https://api.kurobbs.com/encourage/signIn/initSignInV2")]

/-- A request payload (the Python dict passed as `json=` or `data=`). -/
def Payload : Type := List (String × Json)

/-- One logical HTTP request issued by `make_request`: the endpoint, the
Content-Type header set, and the body passed as `json=` resp. `data=`. -/
structure Request where
  endpoint : String
  contentType : String
  jsonBody : Option Payload
  formBody : Option Payload

/-- The mutable client state (`self.results`, `self.exceptions`) plus the
trace of logical HTTP requests issued so far. -/
structure RunState where
  results : List (String × String)
  exceptions : List Exc
  trace : List Request

def initState : RunState := ⟨[], [], []⟩

/-- `action_name in self.results`. -/
def dictContains (d : List (String × String)) (k : String) : Bool :=
  d.any (fun p => p.1 == k)

/-- `d[k] = v` on an insertion-ordered dict. -/
def dictInsert (d : List (String × String)) (k v : String) :
    List (String × String) :=
  if dictContains d k then d.map (fun p => if p.1 == k then (k, v) else p)
  else d ++ [(k, v)]

/-- `d.values()` of an insertion-ordered dict. -/
def dictValues (d : List (String × String)) : List String := d.map (·.2)

def RunState.appendExc (st : RunState) (e : Exc) : RunState :=
  { st with exceptions := st.exceptions ++ [e] }

def RunState.setResult (st : RunState) (k v : String) : RunState :=
  { st with results := dictInsert st.results k v }

def RunState.addTrace (st : RunState) (r : Request) : RunState :=
  { st with trace := st.trace ++ [r] }

/-- `KurobbsClient.make_request`: looks up the endpoint URL (`KeyError`
on an unknown name), sets Content-Type by `use_json`, issues the request
through the retry loop, then validates the body into the envelope
(raising `ValidationException(f"响应验证失败: {e}")` on failure).  The
outer `except Exception` appends any raised exception to
`self.exceptions` and re-raises. -/
def make_request (world : World) (st : RunState) (endpoint : String)
    (data : Payload) (use_json : Bool) : Except Exc ApiResponse × RunState :=
  match API_ENDPOINTS.lookup endpoint with
  | none =>
    let e := Exc.keyError endpoint
    (.error e, st.appendExc e)
  | some _url =>
    let st := st.addTrace
      ⟨endpoint,
       if use_json then "application/json" else "application/x-www-form-urlencoded",
       if use_json then some data else none,
       if use_json then none else some data⟩
    match (requestWithRetry (world endpoint)).out with
    | .error e => (.error e, st.appendExc e)
    | .ok (.invalid msg) =>
      let e := Exc.validationException ("响应验证失败: " ++ msg)
      (.error e, st.appendExc e)
    | .ok (.valid r) => (.ok r, st)

/-- `KurobbsClient.check_sign_status`: posts the four role-identity
fields form-urlencoded to `init_sign_check`, requires `response.data` to
be a dict, and returns `response.data.get("isSigIn", False)` (whatever
JSON value that is; the Python annotation `-> bool` is not enforced).
The enclosing `except Exception` appends the caught exception to
`self.exceptions` and returns `False` — it never re-raises. -/
def check_sign_status (world : World) (st : RunState) (game_info : GameInfo) :
    Json × RunState :=
  let form_data : Payload :=
    [("gameId", .num game_info.gameId),
     ("serverId", .num game_info.serverId),
     ("roleId", .num game_info.roleId),
     ("userId", .num game_info.userId)]
  match make_request world st "init_sign_check" form_data false with
  | (.error e, st') => (.bool false, st'.appendExc e)
  | (.ok resp, st') =>
    match resp.data with
    | some (Json.obj fields) => (Json.objGet fields "isSigIn" (.bool false), st')
    | _ =>
      let e := Exc.validationException "无效的响应数据结构"
      (.bool false, st'.appendExc e)

/-- `GameInfo(**item)`: pydantic validation of one role object.  A
non-dict item makes `GameInfo(**item)` a `TypeError`; a dict whose four
required fields are not all ints is a pydantic `ValidationError`
(message text modelled). -/
def parseGameInfoItem : Json → Except Exc GameInfo
  | .obj fs =>
    match fs.lookup "gameId", fs.lookup "serverId",
          fs.lookup "roleId", fs.lookup "userId" with
    | some (.num g), some (.num s), some (.num r), some (.num u) =>
      .ok ⟨g, s, r, u⟩
    | _, _, _, _ => .error (.validationException "GameInfo字段验证失败")
  | _ => .error (.typeError "角色条目不是映射")

/-- `[GameInfo(**item) for item in response.data]`: iterating a non-list
`data` value fails (modelled as a `TypeError`); otherwise the first
failing item's exception is raised. -/
def parseGameInfoList : Json → Except Exc (List GameInfo)
  | .arr xs => xs.mapM parseGameInfoItem
  | _ => .error (.typeError "响应数据不可迭代为角色列表")

/-- `KurobbsClient.get_user_game_list`: posts `{"gameId": game_id}` to
`find_role_list`; `if not response.data: return []` (Python falsiness);
otherwise builds the `GameInfo` list.  The enclosing `except Exception`
appends any raised exception to `self.exceptions` and re-raises. -/
def get_user_game_list (world : World) (st : RunState) (game_id : Int) :
    Except Exc (List GameInfo) × RunState :=
  match make_request world st "find_role_list" [("gameId", .num game_id)] true with
  | (.error e, st') => (.error e, st'.appendExc e)
  | (.ok resp, st') =>
    match resp.data with
    | none => (.ok [], st')
    | some d =>
      if !d.truthy then (.ok [], st')
      else
        match parseGameInfoList d with
        | .ok lst => (.ok lst, st')
        | .error e => (.error e, st'.appendExc e)

/-- `f"{current_month:02d}"`. -/
def monthString (m : Nat) : String :=
  if m < 10 then "0" ++ toString m else toString m

/-- `KurobbsClient.perform_checkin`: fetches the role list for game 3,
raises `KurobbsClientException("未找到游戏角色信息")` if it is empty,
short-circuits (returning `None` after recording the result) when the
pre-check reports an already-signed-in status (Python truthiness of the
returned value), and otherwise posts the JSON check-in body to
`sign_in`.  Its `except IndexError` clause is unreachable (the empty
list is checked first), so all exceptions propagate. -/
def perform_checkin (world : World) (month : Nat) (st : RunState) :
    Except Exc (Option ApiResponse) × RunState :=
  match get_user_game_list world st 3 with
  | (.error e, st') => (.error e, st')
  | (.ok [], st') => (.error (.kurobbsClientException "未找到游戏角色信息"), st')
  | (.ok (game_info :: _), st') =>
    match check_sign_status world st' game_info with
    | (status, st'') =>
      if status.truthy then
        (.ok none, st''.setResult "daily_checkin" "今日已签到，无需重复")
      else
        let sign_data : Payload :=
          [("gameId", .num game_info.gameId),
           ("serverId", .num game_info.serverId),
           ("roleId", .num game_info.roleId),
           ("userId", .num game_info.userId),
           ("reqMonth", .str (monthString month))]
        match make_request world st'' "sign_in" sign_data true with
        | (.error e, st3) => (.error e, st3)
        | (.ok r, st3) => (.ok (some r), st3)

/-- `KurobbsClient.perform_user_sign`: posts `{"gameId": 2}` as JSON to
`user_sign`. -/
def perform_user_sign (world : World) (st : RunState) :
    Except Exc (Option ApiResponse) × RunState :=
  match make_request world st "user_sign" [("gameId", .num 2)] true with
  | (.error e, st') => (.error e, st')
  | (.ok r, st') => (.ok (some r), st')

/-- `KurobbsClient._handle_sign_action`: skips if the result is already
set; a `None` return means the action already recorded its result; an
envelope with truthy `success` records `success_msg`; otherwise it
raises `KurobbsClientException(f"{failure_msg}: {response.msg} (code:
{response.code})")`, which the enclosing `except Exception` catches —
appending the exception and recording `failure_msg` — as it does for any
exception the action raised. -/
def handle_sign_action (st : RunState) (action_name : String)
    (action : RunState → Except Exc (Option ApiResponse) × RunState)
    (success_msg failure_msg : String) : RunState :=
  if dictContains st.results action_name then st
  else
    match action st with
    | (.error e, st') => (st'.appendExc e).setResult action_name failure_msg
    | (.ok none, st') => st'
    | (.ok (some r), st') =>
      match r.success with
      | some true => st'.setResult action_name success_msg
      | _ =>
        let error_msg :=
          failure_msg ++ ": " ++ r.msg ++ " (code: " ++ toString r.code ++ ")"
        let e := Exc.kurobbsClientException error_msg
        (st'.appendExc e).setResult action_name failure_msg

/-- `", ".join(self.results.values())`. -/
def resultsSummary (results : List (String × String)) : String :=
  String.intercalate ", " (dictValues results)

/-- The numbered error list built by `_generate_report`. -/
def errorDetails (excs : List Exc) : String :=
  String.intercalate "\n"
    ((excs.enum).map fun p =>
      toString (p.1 + 1) ++ ". " ++ p.2.typeName ++ ": " ++ p.2.message)

/-- `KurobbsClient._generate_report`: logs the joined results summary
when any results exist (returned as the optional log line), then raises
`KurobbsClientException(f"遇到{n}个错误:\n{details}")` when any
exceptions were accumulated. -/
def generate_report (st : RunState) : Except Exc Unit × Option String :=
  let log :=
    if st.results.isEmpty then none
    else some ("签到结果: " ++ resultsSummary st.results)
  if st.exceptions.isEmpty then (.ok (), log)
  else
    (.error (.kurobbsClientException
      ("遇到" ++ toString st.exceptions.length ++ "个错误:\n"
        ++ errorDetails st.exceptions)), log)

/-- `KurobbsClient.execute_sign_workflow`: runs the two actions in fixed
order, then generates the report. -/
def execute_sign_workflow (world : World) (month : Nat) (st : RunState) :
    Except Exc Unit × Option String × RunState :=
  let st1 := handle_sign_action st "daily_checkin" (perform_checkin world month)
    "每日签到成功" "每日签到失败"
  let st2 := handle_sign_action st1 "user_signin" (perform_user_sign world)
    "用户签到成功" "用户签到失败"
  match generate_report st2 with
  | (res, log) => (res, log, st2)

/-- `KurobbsClient.notification_message`. -/
def notification_message (dateStr : String) (st : RunState) : String :=
  dateStr ++ " 签到结果: " ++ resultsSummary st.results

/-- The `NotificationMode` string enum. -/
inductive NotificationMode where
  | wechatWork : NotificationMode
  | bark : NotificationMode
  | console : NotificationMode
deriving DecidableEq

/-- `NotificationMode(value)`: `ValueError` (modelled as `none`) on an
unrecognized value. -/
def parseMode (s : String) : Option NotificationMode :=
  if s = "wechatWorkApp" then some .wechatWork
  else if s = "bark" then some .bark
  else if s = "console" then some .console
  else none

/-- `s.lower()` (modelled character-wise; agrees with Python on the
ASCII values the `DEBUG` variable takes). -/
def strToLower (s : String) : String := String.mk (s.data.map Char.toLower)

/-- The process environment variables the script reads. -/
structure EnvVars where
  TOKEN : Option String
  DEBUG : Option String
  MODE : Option String

/-- `parse_env_vars`: `os.environ["TOKEN"]` (a missing key is a
`KeyError` → `sys.exit(1)`), the `DEBUG` flag, and
`NotificationMode(os.environ.get("MODE", "wechatWorkApp"))` (a
`ValueError` → `sys.exit(1)`).  The error value is the exit code. -/
def parse_env_vars (env : EnvVars) : Except Nat (String × Bool × NotificationMode) :=
  match env.TOKEN with
  | none => .error 1
  | some token =>
    let debug := strToLower (env.DEBUG.getD "false") == "true"
    match parseMode (env.MODE.getD "wechatWorkApp") with
    | none => .error 1
    | some mode => .ok (token, debug, mode)

/-- What a run of `main` observably does: the process exit code (0 when
`main` returns normally, otherwise the `sys.exit` argument), the
messages passed to `send_notification` in order (the notification is
attempted; `send_notification` itself swallows delivery errors), the
report log line, and the final client state (whose `trace` lists the
HTTP requests issued). -/
structure MainOutcome where
  exitCode : Nat
  notified : List String
  reportLog : Option String
  state : RunState

/-- `main`: parses the environment (exiting 1 on config errors), builds
the client (`KurobbsClient.__init__` raises `ValueError` on an empty
token, caught by the generic `except Exception` → exit 1), runs the
workflow, and on normal completion sends the notification message when
any results exist (exit 0).  A `KurobbsClientException` is answered by
`send_notification("库街区签到失败", mode)` and `sys.exit(1)`; any other
exception exits 1 without a notification. -/
def Script.main (env : EnvVars) (world : World) (month : Nat) (dateStr : String) :
    MainOutcome :=
  match parse_env_vars env with
  | .error code => ⟨code, [], none, initState⟩
  | .ok (token, _debug, _mode) =>
    if token.isEmpty then ⟨1, [], none, initState⟩
    else
      match execute_sign_workflow world month initState with
      | (.ok (), log, st) =>
        if !st.results.isEmpty then
          ⟨0, [notification_message dateStr st], log, st⟩
        else ⟨0, [], log, st⟩
      | (.error (.kurobbsClientException _), log, st) =>
        ⟨1, ["库街区签到失败"], log, st⟩
      | (.error _, log, st) => ⟨1, [], log, st⟩

/-- `sub in s` (substring containment on strings). -/
def strContains (s sub : String) : Bool :=
  decide (sub.data <:+: s.data)

/-! ### Concrete scenario data

Request values as `make_request` records them, and response envelopes and
worlds for the spec's end-to-end scenarios. -/

/-- The request issued by `get_user_game_list`. -/
def findRoleReq (gid : Int) : Request :=
  ⟨"find_role_list", "application/json", some [("gameId", .num gid)], none⟩

/-- The request issued by `check_sign_status` (form-urlencoded). -/
def initSignReq (gi : GameInfo) : Request :=
  ⟨"init_sign_check", "application/x-www-form-urlencoded", none,
   some [("gameId", .num gi.gameId), ("serverId", .num gi.serverId),
         ("roleId", .num gi.roleId), ("userId", .num gi.userId)]⟩

/-- The request issued by `perform_checkin` for the actual check-in. -/
def signInReq (gi : GameInfo) (month : Nat) : Request :=
  ⟨"sign_in", "application/json",
   some [("gameId", .num gi.gameId), ("serverId", .num gi.serverId),
         ("roleId", .num gi.roleId), ("userId", .num gi.userId),
         ("reqMonth", .str (monthString month))], none⟩

/-- The request issued by `perform_user_sign`. -/
def userSignReq : Request :=
  ⟨"user_sign", "application/json", some [("gameId", .num 2)], none⟩

/-- The spec's example role `{gameId:2, serverId:9, roleId:100, userId:55}`. -/
def role1 : GameInfo := ⟨2, 9, 100, 55⟩

/-- A role-list envelope holding exactly `role1`. -/
def roleEnv : ApiResponse :=
  ⟨200, "ok", some true, some (.arr [.obj
    [("gameId", .num 2), ("serverId", .num 9),
     ("roleId", .num 100), ("userId", .num 55)]])⟩

/-- A status envelope `data: {isSigIn: b}`. -/
def statusEnv (b : Bool) : ApiResponse :=
  ⟨200, "ok", some true, some (.obj [("isSigIn", .bool b)])⟩

/-- A plain success envelope. -/
def okEnv : ApiResponse := ⟨200, "ok", some true, none⟩

/-- A failure envelope with the given upstream message and code. -/
def failEnv (m : String) (c : Int) : ApiResponse := ⟨c, m, some false, none⟩

/-- A world answering each endpoint with a fixed attempt outcome. -/
def worldOf (frl isc si us : AttemptOutcome) : World := fun e _n =>
  if e = "find_role_list" then frl
  else if e = "init_sign_check" then isc
  else if e = "sign_in" then si
  else us

/-- Everything succeeds. -/
def worldHappy : World :=
  worldOf (.ok (.valid roleEnv)) (.ok (.valid (statusEnv false)))
    (.ok (.valid okEnv)) (.ok (.valid okEnv))

/-- Daily check-in succeeds; the community sign-in is rate limited
(`{success:false, code:400, msg:"rate limited"}`). -/
def worldRateLimited : World :=
  worldOf (.ok (.valid roleEnv)) (.ok (.valid (statusEnv false)))
    (.ok (.valid okEnv)) (.ok (.valid (failEnv "rate limited" 400)))

/-- The status check returns an envelope whose `data` is not a dict;
every sign-in endpoint succeeds. -/
def worldBadStatusData : World :=
  worldOf (.ok (.valid roleEnv)) (.ok (.valid ⟨200, "ok", some true, some (.arr [])⟩))
    (.ok (.valid okEnv)) (.ok (.valid okEnv))

/-- The status check reports `isSigIn: true`; the `sign_in` endpoint is
wired to fail, so any contact with it would be visible. -/
def worldAlready : World :=
  worldOf (.ok (.valid roleEnv)) (.ok (.valid (statusEnv true)))
    (.netFail "sign_in should not be called") (.ok (.valid okEnv))

/-- `find_role_list` is down on every attempt; `user_sign` succeeds. -/
def worldRoleListDown : World := fun e _n =>
  if e = "find_role_list" then .netFail "connection error"
  else if e = "user_sign" then .ok (.valid okEnv)
  else .netFail "unused"

/-- A client failing the first two attempts and succeeding on the third. -/
def flakyAttempts : Nat → AttemptOutcome := fun n =>
  if n < 2 then .netFail "x" else .ok (.valid okEnv)

/-- An environment with only `TOKEN` set. -/
def envTok : EnvVars := ⟨some "tok", none, none⟩

/-- The status check encounters an error: the request layer raised
(network failure after retries), the envelope failed validation, or the
envelope's `data` is not the expected status dict.  These are exactly
the paths on which `check_sign_status` catches an exception. -/
def statusCheckErrors (w : World) : Bool :=
  match (requestWithRetry (w "init_sign_check")).out with
  | .error _ => true
  | .ok (.invalid _) => true
  | .ok (.valid r) => !(isDict r.data)


/-! ### Helper lemmas

Reduction lemmas for the embedded functions under symbolic worlds. -/

theorem make_request_ok (w : World) (st : RunState) (ep url : String)
    (d : Payload) (uj : Bool) (r : ApiResponse)
    (hep : API_ENDPOINTS.lookup ep = some url)
    (h : w ep 0 = .ok (.valid r)) :
    make_request w st ep d uj =
      (.ok r, st.addTrace
        ⟨ep, if uj then "application/json" else "application/x-www-form-urlencoded",
         if uj then some d else none, if uj then none else some d⟩) := by
  unfold make_request requestWithRetry requestWithRetryAux
  rw [hep, h]
  rfl

theorem make_request_out_ok (w : World) (st : RunState) (ep url : String)
    (d : Payload) (uj : Bool) (r : ApiResponse)
    (hep : API_ENDPOINTS.lookup ep = some url)
    (h : (requestWithRetry (w ep)).out = .ok (.valid r)) :
    make_request w st ep d uj =
      (.ok r, st.addTrace
        ⟨ep, if uj then "application/json" else "application/x-www-form-urlencoded",
         if uj then some d else none, if uj then none else some d⟩) := by
  unfold make_request
  rw [hep, h]

theorem make_request_err (w : World) (st : RunState) (ep url : String)
    (d : Payload) (uj : Bool) (e : Exc)
    (hep : API_ENDPOINTS.lookup ep = some url)
    (h : (requestWithRetry (w ep)).out = .error e) :
    make_request w st ep d uj =
      (.error e,
       (st.addTrace
        ⟨ep, if uj then "application/json" else "application/x-www-form-urlencoded",
         if uj then some d else none, if uj then none else some d⟩).appendExc e) := by
  unfold make_request
  rw [hep, h]

theorem make_request_invalid (w : World) (st : RunState) (ep url : String)
    (d : Payload) (uj : Bool) (m : String)
    (hep : API_ENDPOINTS.lookup ep = some url)
    (h : (requestWithRetry (w ep)).out = .ok (.invalid m)) :
    make_request w st ep d uj =
      (.error (.validationException ("响应验证失败: " ++ m)),
       (st.addTrace
        ⟨ep, if uj then "application/json" else "application/x-www-form-urlencoded",
         if uj then some d else none, if uj then none else some d⟩).appendExc
         (.validationException ("响应验证失败: " ++ m))) := by
  unfold make_request
  rw [hep, h]

theorem get_user_game_list_roles (w : World) (st : RunState) (gid : Int)
    (h : w "find_role_list" 0 = .ok (.valid roleEnv)) :
    get_user_game_list w st gid = (.ok [role1], st.addTrace (findRoleReq gid)) := by
  unfold get_user_game_list
  rw [make_request_ok w st "find_role_list" _ _ true roleEnv rfl h]
  rfl

theorem check_sign_status_ok (w : World) (st : RunState) (gi : GameInfo) (b : Bool)
    (h : w "init_sign_check" 0 = .ok (.valid (statusEnv b))) :
    check_sign_status w st gi = (.bool b, st.addTrace (initSignReq gi)) := by
  unfold check_sign_status
  dsimp only
  rw [make_request_ok w st "init_sign_check" _ _ false (statusEnv b) rfl h]
  rfl

theorem check_sign_status_of_errors (w : World) (st : RunState) (gi : GameInfo)
    (h : statusCheckErrors w = true) :
    ∃ l, l ≠ [] ∧
      check_sign_status w st gi =
        (.bool false,
         ⟨st.results, st.exceptions ++ l, st.trace ++ [initSignReq gi]⟩) := by
  unfold statusCheckErrors at h
  rcases hx : (requestWithRetry (w "init_sign_check")).out with e | body
  · refine ⟨[e, e], by simp, ?_⟩
    unfold check_sign_status
    dsimp only
    rw [make_request_err w st "init_sign_check" _ _ false e rfl hx]
    simp [RunState.appendExc, RunState.addTrace, initSignReq]
  · rcases body with r | m
    · rw [hx] at h
      simp only at h
      refine ⟨[.validationException "无效的响应数据结构"], by simp, ?_⟩
      unfold check_sign_status
      dsimp only
      rw [make_request_out_ok w st "init_sign_check" _ _ false r rfl hx]
      rcases hd : r.data with _ | j
      · simp [hd, RunState.appendExc, RunState.addTrace, initSignReq]
      · rcases j with _ | b | n | s | xs | fs
        · simp [hd, RunState.appendExc, RunState.addTrace, initSignReq]
        · simp [hd, RunState.appendExc, RunState.addTrace, initSignReq]
        · simp [hd, RunState.appendExc, RunState.addTrace, initSignReq]
        · simp [hd, RunState.appendExc, RunState.addTrace, initSignReq]
        · simp [hd, RunState.appendExc, RunState.addTrace, initSignReq]
        · rw [hd] at h
          simp [isDict] at h
    · rw [hx] at h
      refine ⟨[.validationException ("响应验证失败: " ++ m),
               .validationException ("响应验证失败: " ++ m)], by simp, ?_⟩
      unfold check_sign_status
      dsimp only
      rw [make_request_invalid w st "init_sign_check" _ _ false m rfl hx]
      simp [RunState.appendExc, RunState.addTrace, initSignReq]

theorem check_sign_status_trace (w : World) (st : RunState) (gi : GameInfo) :
    (check_sign_status w st gi).2.trace = st.trace ++ [initSignReq gi] := by
  unfold check_sign_status
  dsimp only
  rcases hx : (requestWithRetry (w "init_sign_check")).out with e | body
  · rw [make_request_err w st "init_sign_check" _ _ false e rfl hx]
    simp [RunState.addTrace, RunState.appendExc, initSignReq]
  · rcases body with r | msg
    · rw [make_request_out_ok w st "init_sign_check" _ _ false r rfl hx]
      rcases hd : r.data with _ | j
      · simp [hd, RunState.addTrace, RunState.appendExc, initSignReq]
      · rcases j with _ | b | n | s | xs | fs
        all_goals simp [hd, RunState.addTrace, RunState.appendExc, initSignReq]
    · rw [make_request_invalid w st "init_sign_check" _ _ false msg rfl hx]
      simp [RunState.addTrace, RunState.appendExc, initSignReq]

theorem perform_user_sign_ok (w : World) (st : RunState) (r : ApiResponse)
    (h : w "user_sign" 0 = .ok (.valid r)) :
    perform_user_sign w st = (.ok (some r), st.addTrace userSignReq) := by
  unfold perform_user_sign
  rw [make_request_ok w st "user_sign" _ _ true r rfl h]
  rfl

theorem perform_user_sign_trace (w : World) (st : RunState) :
    (perform_user_sign w st).2.trace = st.trace ++ [userSignReq] := by
  unfold perform_user_sign
  rcases hx : (requestWithRetry (w "user_sign")).out with e | body
  · rw [make_request_err w st "user_sign" _ _ true e rfl hx]
    simp [RunState.addTrace, RunState.appendExc, userSignReq]
  · rcases body with r | msg
    · rw [make_request_out_ok w st "user_sign" _ _ true r rfl hx]
      simp [RunState.addTrace, userSignReq]
    · rw [make_request_invalid w st "user_sign" _ _ true msg rfl hx]
      simp [RunState.addTrace, RunState.appendExc, userSignReq]

theorem perform_checkin_already (w : World) (m : Nat) (st : RunState)
    (h1 : w "find_role_list" 0 = .ok (.valid roleEnv))
    (h2 : w "init_sign_check" 0 = .ok (.valid (statusEnv true))) :
    perform_checkin w m st =
      (.ok none,
       ((st.addTrace (findRoleReq 3)).addTrace (initSignReq role1)).setResult
         "daily_checkin" "今日已签到，无需重复") := by
  unfold perform_checkin
  rw [get_user_game_list_roles w st 3 h1]
  simp only [role1]
  rw [check_sign_status_ok w _ _ true h2]
  simp [Json.truthy]

theorem perform_checkin_after_status_error (w : World) (m : Nat) (st : RunState)
    (r : ApiResponse)
    (h1 : w "find_role_list" 0 = .ok (.valid roleEnv))
    (hS : statusCheckErrors w = true)
    (h3 : w "sign_in" 0 = .ok (.valid r)) :
    ∃ l, l ≠ [] ∧
      perform_checkin w m st =
        (.ok (some r),
         ⟨st.results, st.exceptions ++ l,
          st.trace ++ [findRoleReq 3, initSignReq role1, signInReq role1 m]⟩) := by
  obtain ⟨l, hl, hcheck⟩ :=
    check_sign_status_of_errors w (st.addTrace (findRoleReq 3)) role1 hS
  refine ⟨l, hl, ?_⟩
  unfold perform_checkin
  rw [get_user_game_list_roles w st 3 h1]
  simp only [role1] at hcheck ⊢
  rw [hcheck]
  simp only [Json.truthy, Bool.false_eq_true, if_false]
  rw [make_request_ok w _ "sign_in" _ _ true r rfl h3]
  simp [RunState.addTrace, RunState.appendExc, signInReq]

theorem perform_checkin_trace_not_signed (w : World) (m : Nat) (st : RunState)
    (h1 : w "find_role_list" 0 = .ok (.valid roleEnv))
    (h2 : w "init_sign_check" 0 = .ok (.valid (statusEnv false))) :
    (perform_checkin w m st).2.trace =
      st.trace ++ [findRoleReq 3, initSignReq role1, signInReq role1 m] := by
  unfold perform_checkin
  rw [get_user_game_list_roles w st 3 h1]
  simp only [role1]
  rw [check_sign_status_ok w _ _ false h2]
  simp only [Json.truthy, Bool.false_eq_true, if_false]
  rcases hx : (requestWithRetry (w "sign_in")).out with e | body
  · rw [make_request_err w _ "sign_in" _ _ true e rfl hx]
    simp [RunState.addTrace, RunState.appendExc, signInReq, role1]
  · rcases body with r | msg
    · rw [make_request_out_ok w _ "sign_in" _ _ true r rfl hx]
      simp [RunState.addTrace, signInReq, role1]
    · rw [make_request_invalid w _ "sign_in" _ _ true msg rfl hx]
      simp [RunState.addTrace, RunState.appendExc, signInReq, role1]

theorem perform_checkin_trace_after_status_error (w : World) (m : Nat) (st : RunState)
    (h1 : w "find_role_list" 0 = .ok (.valid roleEnv))
    (hS : statusCheckErrors w = true) :
    (perform_checkin w m st).2.trace =
      st.trace ++ [findRoleReq 3, initSignReq role1, signInReq role1 m] := by
  obtain ⟨l, hl, hcheck⟩ :=
    check_sign_status_of_errors w (st.addTrace (findRoleReq 3)) role1 hS
  unfold perform_checkin
  rw [get_user_game_list_roles w st 3 h1]
  simp only [role1] at hcheck ⊢
  rw [hcheck]
  simp only [Json.truthy, Bool.false_eq_true, if_false]
  rcases hx : (requestWithRetry (w "sign_in")).out with e | body
  · rw [make_request_err w _ "sign_in" _ _ true e rfl hx]
    simp [RunState.addTrace, RunState.appendExc, signInReq, role1]
  · rcases body with r | msg
    · rw [make_request_out_ok w _ "sign_in" _ _ true r rfl hx]
      simp [RunState.addTrace, signInReq, role1]
    · rw [make_request_invalid w _ "sign_in" _ _ true msg rfl hx]
      simp [RunState.addTrace, RunState.appendExc, signInReq, role1]

theorem handle_action_success (st : RunState) (name : String)
    (act : RunState → Except Exc (Option ApiResponse) × RunState)
    (smsg fmsg : String) (r : ApiResponse) (st' : RunState)
    (hc : dictContains st.results name = false)
    (ha : act st = (.ok (some r), st'))
    (hs : r.success = some true) :
    handle_sign_action st name act smsg fmsg = st'.setResult name smsg := by
  unfold handle_sign_action
  rw [hc]
  simp only [Bool.false_eq_true, if_false]
  rw [ha]
  simp [hs]

theorem handle_action_none (st : RunState) (name : String)
    (act : RunState → Except Exc (Option ApiResponse) × RunState)
    (smsg fmsg : String) (st' : RunState)
    (hc : dictContains st.results name = false)
    (ha : act st = (.ok none, st')) :
    handle_sign_action st name act smsg fmsg = st' := by
  unfold handle_sign_action
  rw [hc]
  simp only [Bool.false_eq_true, if_false]
  rw [ha]

theorem main_of_workflow_err (w : World) (m : Nat) (d s : String)
    (log : Option String) (st : RunState)
    (hw : execute_sign_workflow w m initState =
      (.error (.kurobbsClientException s), log, st)) :
    Script.main envTok w m d = ⟨1, ["库街区签到失败"], log, st⟩ := by
  unfold Script.main
  have hp : parse_env_vars envTok = .ok ("tok", false, .wechatWork) := rfl
  rw [hp]
  dsimp only
  rw [if_neg (by decide), hw]

theorem main_of_workflow_ok (w : World) (m : Nat) (d : String)
    (log : Option String) (st : RunState)
    (hw : execute_sign_workflow w m initState = (.ok (), log, st))
    (hres : st.results ≠ []) :
    Script.main envTok w m d = ⟨0, [notification_message d st], log, st⟩ := by
  unfold Script.main
  have hp : parse_env_vars envTok = .ok ("tok", false, .wechatWork) := rfl
  rw [hp]
  dsimp only
  rw [if_neg (by decide), hw]
  simp [hres]

theorem requestWithRetryAux_len (f : Nat → AttemptOutcome) :
    ∀ (fuel attempt : Nat),
      (requestWithRetryAux f attempt fuel).attemptsMade.length ≤ fuel := by
  intro fuel
  induction fuel with
  | zero => intro attempt; simp [requestWithRetryAux]
  | succ n ih =>
    intro attempt
    unfold requestWithRetryAux
    cases f attempt with
    | ok body => simp
    | netFail msg =>
      by_cases h : attempt < MAX_RETRIES - 1
      · simp only [h, if_true]
        simpa using Nat.succ_le_succ (ih (attempt + 1))
      · simp [h]

/-! ### Claim theorems -/

/-- C1, counterexample: in the spec's rate-limited scenario
(`worldRateLimited`: daily check-in succeeds, community sign-in returns
`{success:false, code:400, msg:"rate limited"}`), the notification that
is attempted carries the fixed string 库街区签到失败, which does not
contain the partial summary of successes that was logged (the attempted
message does not even contain the fragment 每日签到成功), refuting the
claim that the notification message mirrors the logged summary. -/
theorem C1_counterexample :
    (Script.main envTok worldRateLimited 3 "2026-10-12").exitCode = 1 ∧
    (Script.main envTok worldRateLimited 3 "2026-10-12").notified = ["库街区签到失败"] ∧
    (Script.main envTok worldRateLimited 3 "2026-10-12").reportLog =
      some "签到结果: 每日签到成功, 用户签到失败" ∧
    strContains "库街区签到失败"
      (resultsSummary (Script.main envTok worldRateLimited 3 "2026-10-12").state.results)
      = false :=
  ⟨rfl, rfl, rfl, rfl⟩

/-- C1, amended: in the rate-limited scenario the aggregate workflow
error is raised (its text embeds the upstream msg "rate limited"), the
process exits 1, the partial summary is logged, and a notification is
still attempted — but with the fixed message 库街区签到失败 rather than
the partial summary. -/
theorem C1_fixed_failure_notification :
    (execute_sign_workflow worldRateLimited 3 initState).1 =
      .error (.kurobbsClientException
        "遇到1个错误:\n1. KurobbsClientException: 用户签到失败: rate limited (code: 400)") ∧
    strContains
      "遇到1个错误:\n1. KurobbsClientException: 用户签到失败: rate limited (code: 400)"
      "rate limited" = true ∧
    (Script.main envTok worldRateLimited 3 "2026-10-12").exitCode = 1 ∧
    (Script.main envTok worldRateLimited 3 "2026-10-12").notified = ["库街区签到失败"] ∧
    (Script.main envTok worldRateLimited 3 "2026-10-12").reportLog =
      some "签到结果: 每日签到成功, 用户签到失败" :=
  ⟨rfl, rfl, rfl, rfl, rfl⟩

/-- C2, counterexample: on a partial failure (daily check-in succeeded,
community sign-in failed) a notification is attempted, yet the process
exit code is 1, not 0 as the claim states. -/
theorem C2_counterexample :
    (Script.main envTok worldRateLimited 3 "2026-10-12").state.results =
      [("daily_checkin", "每日签到成功"), ("user_signin", "用户签到失败")] ∧
    (Script.main envTok worldRateLimited 3 "2026-10-12").notified = ["库街区签到失败"] ∧
    (Script.main envTok worldRateLimited 3 "2026-10-12").exitCode = 1 :=
  ⟨rfl, rfl, rfl⟩

/-- C2, amended: the exit code is 0 exactly when the workflow finishes
with no accumulated errors (full success); on partial failure a
notification is attempted but the exit code is still 1; it is 1 on any
workflow failure and on missing or invalid environment configuration. -/
theorem C2_exit_code_semantics :
    (Script.main envTok worldHappy 3 "d").exitCode = 0 ∧
    (∀ (w : World) (m : Nat) (d : String),
      (execute_sign_workflow w m initState).1 = .ok () →
      (Script.main envTok w m d).exitCode = 0) ∧
    (∀ (w : World) (m : Nat) (d : String) (e : Exc),
      (execute_sign_workflow w m initState).1 = .error e →
      (Script.main envTok w m d).exitCode = 1) ∧
    (Script.main envTok worldRateLimited 3 "d").notified ≠ [] ∧
    (Script.main envTok worldRateLimited 3 "d").exitCode = 1 ∧
    (∀ (w : World) (m : Nat) (d : String),
      (Script.main ⟨none, none, none⟩ w m d).exitCode = 1) ∧
    (∀ (w : World) (m : Nat) (d : String),
      (Script.main ⟨some "tok", none, some "badmode"⟩ w m d).exitCode = 1) := by
  refine ⟨rfl, ?_, ?_, by decide, rfl, fun w m d => rfl, fun w m d => rfl⟩
  · intro w m d h
    unfold Script.main
    rcases hx : execute_sign_workflow w m initState with ⟨res, log, st⟩
    rw [hx] at h
    simp only at h
    subst h
    simp [parse_env_vars, envTok, parseMode]
    rw [if_neg (by decide)]
    split <;> rfl
  · intro w m d e h
    unfold Script.main
    rcases hx : execute_sign_workflow w m initState with ⟨res, log, st⟩
    rw [hx] at h
    simp only at h
    subst h
    cases e <;> rfl

/-- C2 witness at a concrete input. -/
theorem C2_exit_code_semantics_witness :
    (Script.main envTok worldHappy 3 "d").exitCode = 0 ∧
    (Script.main envTok worldRoleListDown 3 "d").exitCode = 1 :=
  ⟨C2_exit_code_semantics.2.1 worldHappy 3 "d" rfl,
   C2_exit_code_semantics.2.2.1 worldRoleListDown 3 "d" _ rfl⟩

/-- C3: whenever the sign-in status pre-check encounters an error
(`statusCheckErrors`: network failure after retries, envelope validation
failure, or a non-dict `data`), the caught exception lands in the
client's exceptions list, so even though both actions then record
success results, `_generate_report` raises the aggregate
`KurobbsClientException` and the process exits 1. -/
theorem C3_status_check_error_fails_run (w : World) (m : Nat) (d : String)
    (h1 : w "find_role_list" 0 = .ok (.valid roleEnv))
    (hS : statusCheckErrors w = true)
    (h3 : w "sign_in" 0 = .ok (.valid okEnv))
    (h4 : w "user_sign" 0 = .ok (.valid okEnv)) :
    (Script.main envTok w m d).state.results =
      [("daily_checkin", "每日签到成功"), ("user_signin", "用户签到成功")] ∧
    (Script.main envTok w m d).state.exceptions ≠ [] ∧
    (Script.main envTok w m d).exitCode = 1 ∧
    ∃ s, (execute_sign_workflow w m initState).1 =
      .error (.kurobbsClientException s) := by
  obtain ⟨l, hl, hpc⟩ := perform_checkin_after_status_error w m initState okEnv h1 hS h3
  rcases l with _ | ⟨e0, l0⟩
  · exact absurd rfl hl
  have hpc' : perform_checkin w m initState =
      (.ok (some okEnv),
       ⟨[], e0 :: l0, [findRoleReq 3, initSignReq role1, signInReq role1 m]⟩) := by
    rw [hpc]
    simp [initState]
  have hstep1 : handle_sign_action initState "daily_checkin" (perform_checkin w m)
      "每日签到成功" "每日签到失败"
      = ⟨[("daily_checkin", "每日签到成功")], e0 :: l0,
         [findRoleReq 3, initSignReq role1, signInReq role1 m]⟩ := by
    rw [handle_action_success initState _ _ _ _ okEnv _ rfl hpc' rfl]
    simp [RunState.setResult, dictInsert, dictContains]
  have hstep2 : handle_sign_action
      (⟨[("daily_checkin", "每日签到成功")], e0 :: l0,
        [findRoleReq 3, initSignReq role1, signInReq role1 m]⟩ : RunState)
      "user_signin" (perform_user_sign w) "用户签到成功" "用户签到失败"
      = ⟨[("daily_checkin", "每日签到成功"), ("user_signin", "用户签到成功")], e0 :: l0,
         [findRoleReq 3, initSignReq role1, signInReq role1 m, userSignReq]⟩ := by
    have hc2 : dictContains [("daily_checkin", "每日签到成功")] "user_signin" = false := by
      decide
    rw [handle_action_success _ _ _ _ _ okEnv _ hc2
      (perform_user_sign_ok w _ okEnv h4) rfl]
    simp [RunState.setResult, RunState.addTrace, dictInsert, dictContains]
  have hw : execute_sign_workflow w m initState =
      (.error (.kurobbsClientException
        ("遇到" ++ toString (e0 :: l0).length ++ "个错误:\n" ++ errorDetails (e0 :: l0))),
       some "签到结果: 每日签到成功, 用户签到成功",
       ⟨[("daily_checkin", "每日签到成功"), ("user_signin", "用户签到成功")], e0 :: l0,
        [findRoleReq 3, initSignReq role1, signInReq role1 m, userSignReq]⟩) := by
    unfold execute_sign_workflow
    rw [hstep1]
    dsimp only
    rw [hstep2]
    rfl
  have hm := main_of_workflow_err w m d _ _ _ hw
  rw [hm]
  exact ⟨rfl, by simp, rfl, _, by rw [hw]⟩

/-- C3 witness at a concrete input. -/
theorem C3_status_check_error_fails_run_witness :
    (Script.main envTok worldBadStatusData 3 "d").state.results =
      [("daily_checkin", "每日签到成功"), ("user_signin", "用户签到成功")] ∧
    (Script.main envTok worldBadStatusData 3 "d").exitCode = 1 :=
  ⟨(C3_status_check_error_fails_run worldBadStatusData 3 "d" rfl rfl rfl rfl).1,
   (C3_status_check_error_fails_run worldBadStatusData 3 "d" rfl rfl rfl rfl).2.2.1⟩

/-- C4: for every error the status check encounters
(`statusCheckErrors` covers network, validation and malformed-data
errors), `check_sign_status` returns `False` to its caller instead of
propagating, and the daily check-in is still attempted — the trace of
`perform_checkin` still ends with the `sign_in` request. -/
theorem C4_status_check_fails_open :
    (∀ (w : World) (st : RunState) (gi : GameInfo),
      statusCheckErrors w = true →
      (check_sign_status w st gi).1 = Json.bool false) ∧
    (∀ (w : World) (m : Nat) (st : RunState),
      statusCheckErrors w = true →
      w "find_role_list" 0 = .ok (.valid roleEnv) →
      (perform_checkin w m st).2.trace =
        st.trace ++ [findRoleReq 3, initSignReq role1, signInReq role1 m]) := by
  constructor
  · intro w st gi h
    obtain ⟨l, hl, hc⟩ := check_sign_status_of_errors w st gi h
    rw [hc]
  · intro w m st h h1
    exact perform_checkin_trace_after_status_error w m st h1 h

/-- C4 witness at a concrete input. -/
theorem C4_status_check_fails_open_witness :
    (check_sign_status worldBadStatusData initState role1).1 = Json.bool false ∧
    (perform_checkin worldBadStatusData 3 initState).2.trace =
      initState.trace ++ [findRoleReq 3, initSignReq role1, signInReq role1 3] :=
  ⟨C4_status_check_fails_open.1 worldBadStatusData initState role1 rfl,
   C4_status_check_fails_open.2 worldBadStatusData 3 initState rfl rfl⟩

/-- C5: the HTTP layer makes at most `MAX_RETRIES = 3` attempts; a
client that fails twice then succeeds yields the successful body with
linear backoff sleeps of 1s and 2s between attempts; a client failing
all three attempts raises `RequestException`; an envelope validation
failure is raised after a single attempt and is not retried. -/
theorem C5_retry_policy :
    (∀ f : Nat → AttemptOutcome,
      (requestWithRetry f).attemptsMade.length ≤ MAX_RETRIES) ∧
    (∀ (f : Nat → AttemptOutcome) (m0 m1 : String) (body : ResponseBody),
      f 0 = .netFail m0 → f 1 = .netFail m1 → f 2 = .ok body →
      requestWithRetry f = ⟨.ok body, [0, 1, 2], [1, 2]⟩) ∧
    (∀ (f : Nat → AttemptOutcome) (m0 m1 m2 : String),
      f 0 = .netFail m0 → f 1 = .netFail m1 → f 2 = .netFail m2 →
      requestWithRetry f =
        ⟨.error (.requestException ("请求失败: " ++ m2)), [0, 1, 2], [1, 2]⟩) ∧
    (∀ (w : World) (st : RunState) (ep url : String) (dp : Payload) (uj : Bool)
       (msg : String),
      API_ENDPOINTS.lookup ep = some url →
      w ep 0 = .ok (.invalid msg) →
      (make_request w st ep dp uj).1 =
        .error (.validationException ("响应验证失败: " ++ msg)) ∧
      requestWithRetry (w ep) = ⟨.ok (.invalid msg), [0], []⟩) := by
  refine ⟨fun f => requestWithRetryAux_len f MAX_RETRIES 0, ?_, ?_, ?_⟩
  · intro f m0 m1 body h0 h1 h2
    have e1 : requestWithRetryAux f 2 1 = ⟨.ok body, [2], []⟩ := by
      unfold requestWithRetryAux
      rw [h2]
    have e2 : requestWithRetryAux f 1 2 = ⟨.ok body, [1, 2], [2]⟩ := by
      unfold requestWithRetryAux
      rw [h1]
      dsimp only
      rw [if_pos (show (1 : Nat) < MAX_RETRIES - 1 by decide)]
      simp only [Nat.reduceAdd, e1, RETRY_DELAY, Nat.reduceMul]
    have e3 : requestWithRetryAux f 0 3 = ⟨.ok body, [0, 1, 2], [1, 2]⟩ := by
      unfold requestWithRetryAux
      rw [h0]
      dsimp only
      rw [if_pos (show (0 : Nat) < MAX_RETRIES - 1 by decide)]
      simp only [Nat.reduceAdd, Nat.zero_add, e2, RETRY_DELAY, Nat.reduceMul]
    exact e3
  · intro f m0 m1 m2 h0 h1 h2
    have e1 : requestWithRetryAux f 2 1 =
        ⟨.error (.requestException ("请求失败: " ++ m2)), [2], []⟩ := by
      unfold requestWithRetryAux
      rw [h2]
      simp [MAX_RETRIES]
    have e2 : requestWithRetryAux f 1 2 =
        ⟨.error (.requestException ("请求失败: " ++ m2)), [1, 2], [2]⟩ := by
      unfold requestWithRetryAux
      rw [h1]
      dsimp only
      rw [if_pos (show (1 : Nat) < MAX_RETRIES - 1 by decide)]
      simp only [Nat.reduceAdd, e1, RETRY_DELAY, Nat.reduceMul]
    have e3 : requestWithRetryAux f 0 3 =
        ⟨.error (.requestException ("请求失败: " ++ m2)), [0, 1, 2], [1, 2]⟩ := by
      unfold requestWithRetryAux
      rw [h0]
      dsimp only
      rw [if_pos (show (0 : Nat) < MAX_RETRIES - 1 by decide)]
      simp only [Nat.reduceAdd, Nat.zero_add, e2, RETRY_DELAY, Nat.reduceMul]
    exact e3
  · intro w st ep url dp uj msg hep h
    have e : requestWithRetry (w ep) = ⟨.ok (.invalid msg), [0], []⟩ := by
      unfold requestWithRetry requestWithRetryAux
      rw [h]
      rfl
    refine ⟨?_, e⟩
    unfold make_request
    rw [hep]
    dsimp only
    rw [e]

/-- C5 witness at a concrete input. -/
theorem C5_retry_policy_witness :
    requestWithRetry flakyAttempts = ⟨.ok (.valid okEnv), [0, 1, 2], [1, 2]⟩ ∧
    (make_request (fun _ _n => .ok (.invalid "bad body")) initState
      "user_sign" [] true).1 =
      .error (.validationException ("响应验证失败: " ++ "bad body")) :=
  ⟨C5_retry_policy.2.1 flakyAttempts "x" "x" (.valid okEnv) rfl rfl rfl,
   (C5_retry_policy.2.2.2 (fun _ _n => .ok (.invalid "bad body")) initState
     "user_sign" _ [] true "bad body" rfl rfl).1⟩

/-- C6: for any response envelope, `_handle_sign_action` records the
canned success string whenever `success == true` (regardless of the
other fields), and on `success == false` it records the failure string
and appends a `KurobbsClientException` whose text embeds the upstream
`msg` and `code`. -/
theorem C6_envelope_classification (st : RunState) (name smsg fmsg : String) (r : ApiResponse)
    (hc : dictContains st.results name = false) :
    (r.success = some true →
      handle_sign_action st name (fun s => (.ok (some r), s)) smsg fmsg
        = { st with results := st.results ++ [(name, smsg)] }) ∧
    (r.success = some false →
      handle_sign_action st name (fun s => (.ok (some r), s)) smsg fmsg
        = { st with
            results := st.results ++ [(name, fmsg)],
            exceptions := st.exceptions ++
              [.kurobbsClientException
                (fmsg ++ ": " ++ r.msg ++ " (code: " ++ toString r.code ++ ")")] }) := by
  constructor
  · intro hs
    rw [handle_action_success st name _ smsg fmsg r st hc rfl hs]
    simp [RunState.setResult, dictInsert, hc]
  · intro hs
    unfold handle_sign_action
    rw [hc]
    simp only [Bool.false_eq_true, if_false]
    rw [hs]
    simp only [RunState.setResult, RunState.appendExc, dictInsert]
    rw [hc]
    simp

/-- C6 witness at a concrete input. -/
theorem C6_envelope_classification_witness :
    dictContains initState.results "a" = false ∧
    handle_sign_action initState "a"
      (fun s => (.ok (some (failEnv "m" 7)), s)) "s" "f"
      = ⟨[("a", "f")], [.kurobbsClientException "f: m (code: 7)"], []⟩ :=
  ⟨rfl, by simpa using (C6_envelope_classification initState "a" "s" "f" (failEnv "m" 7) rfl).2 rfl⟩

/-- C7: when the status check reports `isSigIn: true`, the daily
check-in action records 今日已签到，无需重复 without the `sign_in`
endpoint ever being contacted; the workflow still proceeds to the
community sign-in (`user_sign`) endpoint and finishes cleanly. -/
theorem C7_already_signed_short_circuit (w : World) (m : Nat) (d : String)
    (h1 : w "find_role_list" 0 = .ok (.valid roleEnv))
    (h2 : w "init_sign_check" 0 = .ok (.valid (statusEnv true)))
    (h4 : w "user_sign" 0 = .ok (.valid okEnv)) :
    (Script.main envTok w m d).state.results =
      [("daily_checkin", "今日已签到，无需重复"), ("user_signin", "用户签到成功")] ∧
    (Script.main envTok w m d).state.trace.map Request.endpoint =
      ["find_role_list", "init_sign_check", "user_sign"] ∧
    "sign_in" ∉ (Script.main envTok w m d).state.trace.map Request.endpoint ∧
    (Script.main envTok w m d).exitCode = 0 := by
  have hpc' : perform_checkin w m initState =
      (.ok none,
       ⟨[("daily_checkin", "今日已签到，无需重复")], [],
        [findRoleReq 3, initSignReq role1]⟩) := by
    rw [perform_checkin_already w m initState h1 h2]
    simp [initState, RunState.addTrace, RunState.setResult, dictInsert, dictContains]
  have hstep1 : handle_sign_action initState "daily_checkin" (perform_checkin w m)
      "每日签到成功" "每日签到失败"
      = ⟨[("daily_checkin", "今日已签到，无需重复")], [],
         [findRoleReq 3, initSignReq role1]⟩ :=
    handle_action_none initState _ _ _ _ _ rfl hpc'
  have hc2 : dictContains [("daily_checkin", "今日已签到，无需重复")] "user_signin" = false := by
    decide
  have hstep2 : handle_sign_action
      (⟨[("daily_checkin", "今日已签到，无需重复")], [],
        [findRoleReq 3, initSignReq role1]⟩ : RunState)
      "user_signin" (perform_user_sign w) "用户签到成功" "用户签到失败"
      = ⟨[("daily_checkin", "今日已签到，无需重复"), ("user_signin", "用户签到成功")], [],
         [findRoleReq 3, initSignReq role1, userSignReq]⟩ := by
    rw [handle_action_success _ _ _ _ _ okEnv _ hc2
      (perform_user_sign_ok w _ okEnv h4) rfl]
    simp [RunState.setResult, RunState.addTrace, dictInsert, dictContains]
  have hw : execute_sign_workflow w m initState =
      (.ok (), some "签到结果: 今日已签到，无需重复, 用户签到成功",
       ⟨[("daily_checkin", "今日已签到，无需重复"), ("user_signin", "用户签到成功")], [],
        [findRoleReq 3, initSignReq role1, userSignReq]⟩) := by
    unfold execute_sign_workflow
    rw [hstep1]
    dsimp only
    rw [hstep2]
    rfl
  have hm := main_of_workflow_ok w m d _ _ hw (by simp)
  rw [hm]
  exact ⟨rfl, by simp [findRoleReq, initSignReq, userSignReq],
    by simp [findRoleReq, initSignReq, userSignReq], rfl⟩

/-- C7 witness at a concrete input. -/
theorem C7_already_signed_short_circuit_witness :
    (Script.main envTok worldAlready 3 "d").state.results =
      [("daily_checkin", "今日已签到，无需重复"), ("user_signin", "用户签到成功")] ∧
    "sign_in" ∉ (Script.main envTok worldAlready 3 "d").state.trace.map Request.endpoint :=
  ⟨(C7_already_signed_short_circuit worldAlready 3 "d" rfl rfl rfl).1,
   (C7_already_signed_short_circuit worldAlready 3 "d" rfl rfl rfl).2.2.1⟩

/-- C8: with `TOKEN` unset the process exits 1 during environment
parsing with an empty request trace (no network call attempted, no
notification); an unrecognized `MODE` value likewise exits 1 before any
network activity. -/
theorem C8_env_config_failures (w : World) (month : Nat) (dateStr : String) :
    Script.main ⟨none, none, none⟩ w month dateStr = ⟨1, [], none, initState⟩ ∧
    Script.main ⟨some "tok", none, some "badmode"⟩ w month dateStr
      = ⟨1, [], none, initState⟩ :=
  ⟨rfl, rfl⟩

/-- C9: the request encodings are fixed per endpoint: the status check
posts a form-urlencoded body with exactly `{gameId, serverId, roleId,
userId}` (`jsonBody = none`), while the daily check-in and community
sign-in requests are JSON-encoded; the full request trace of
`perform_checkin` is as recorded. -/
theorem C9_content_type_per_endpoint :
    (∀ (w : World) (st : RunState) (gi : GameInfo),
      (check_sign_status w st gi).2.trace = st.trace ++ [initSignReq gi]) ∧
    (∀ gi : GameInfo,
      (initSignReq gi).contentType = "application/x-www-form-urlencoded" ∧
      (initSignReq gi).jsonBody = none ∧
      (initSignReq gi).formBody =
        some [("gameId", .num gi.gameId), ("serverId", .num gi.serverId),
              ("roleId", .num gi.roleId), ("userId", .num gi.userId)]) ∧
    (∀ (w : World) (st : RunState),
      (perform_user_sign w st).2.trace = st.trace ++ [userSignReq]) ∧
    userSignReq.contentType = "application/json" ∧
    userSignReq.formBody = none ∧
    (∀ (gi : GameInfo) (m : Nat),
      (signInReq gi m).contentType = "application/json" ∧
      (signInReq gi m).formBody = none) ∧
    (∀ (w : World) (m : Nat) (st : RunState),
      w "find_role_list" 0 = .ok (.valid roleEnv) →
      w "init_sign_check" 0 = .ok (.valid (statusEnv false)) →
      (perform_checkin w m st).2.trace =
        st.trace ++ [findRoleReq 3, initSignReq role1, signInReq role1 m]) :=
  ⟨check_sign_status_trace, fun _ => ⟨rfl, rfl, rfl⟩, perform_user_sign_trace,
   rfl, rfl, fun _ _ => ⟨rfl, rfl⟩,
   fun w m st h1 h2 => perform_checkin_trace_not_signed w m st h1 h2⟩

/-- C9 witness at a concrete world. -/
theorem C9_content_type_per_endpoint_witness :
    (perform_checkin worldHappy 3 initState).2.trace =
      initState.trace ++ [findRoleReq 3, initSignReq role1, signInReq role1 3] :=
  C9_content_type_per_endpoint.2.2.2.2.2.2 worldHappy 3 initState rfl rfl

/-- C10: a single network failure of the role-list request is appended
to `self.exceptions` three times — by `make_request`, again by
`get_user_game_list`, and again by `_handle_sign_action` — so with one
failed action (and one successful one) the aggregate report counts 3
errors, strictly more than the number of failed actions. -/
theorem C10_exception_multi_append :
    (execute_sign_workflow worldRoleListDown 3 initState).2.2.results =
      [("daily_checkin", "每日签到失败"), ("user_signin", "用户签到成功")] ∧
    (execute_sign_workflow worldRoleListDown 3 initState).2.2.exceptions =
      [.requestException "请求失败: connection error",
       .requestException "请求失败: connection error",
       .requestException "请求失败: connection error"] ∧
    (execute_sign_workflow worldRoleListDown 3 initState).1 =
      .error (.kurobbsClientException
        ("遇到3个错误:\n1. RequestException: 请求失败: connection error\n"
          ++ "2. RequestException: 请求失败: connection error\n"
          ++ "3. RequestException: 请求失败: connection error")) ∧
    3 > 1 :=
  ⟨rfl, rfl, rfl, by decide⟩
